import Mathlib

/-!
# Verification of the `apiproxy` HTTP caching transport

A shallow embedding of the `httpcache` package (the caching
`http.RoundTripper` and the in-memory TTL cache store) together with
proofs of its specified properties.

Modelling conventions:
* Go `http.Header` (`map[string][]string` accessed through the
  canonicalising `Get`/`Set`/`Del` API of `net/textproto`) is a function
  `String → List String`; the access functions canonicalise the key
  exactly as `textproto.CanonicalMIMEHeaderKey` does.
* A serialized response (the byte sequence produced by
  `httputil.DumpResponse` and consumed by `http.ReadResponse`) is
  represented by its parse: `CacheEntry.wellFormed` holds the status
  code, headers and body a successful parse yields, `CacheEntry.malformed`
  stands for any byte sequence `http.ReadResponse` rejects.
* A response body (`io.ReadCloser`) is `Except String String`: either the
  bytes it yields or the read error it fails with; `DumpResponse` fails
  exactly when reading the body fails.
* `Transport.RoundTrip` is a pure function of the cache-store read
  function and the underlying transport; its result records, besides the
  returned value, the keys passed to `Cache.Get`, the `Cache.Set` calls,
  the requests forwarded to the underlying transport, and the state of the
  caller's request object when the call returns (Go mutates the request
  in place).
-/

/-- `textproto.validHeaderFieldByte`: bytes allowed in a header field name. -/
def validHeaderFieldByte (c : Char) : Bool :=
  (Char.ofNat 48 ≤ c && c ≤ Char.ofNat 57) ||   -- 0-9
  (Char.ofNat 97 ≤ c && c ≤ Char.ofNat 122) ||  -- a-z
  (Char.ofNat 65 ≤ c && c ≤ Char.ofNat 90) ||   -- A-Z
  [33, 35, 36, 37, 38, 39, 42, 43, 45, 46, 94, 95, 96, 124, 126].contains c.toNat

/-- The character rewriting of `textproto.canonicalMIMEHeaderKey`: the first
byte and every byte following a hyphen is upper-cased, every other byte is
lower-cased.  The `Bool` argument is Go's `upper` flag. -/
def canonChars : Bool → List Char → List Char
  | _, [] => []
  | upper, c :: rest =>
    let c := if upper then c.toUpper else c.toLower
    c :: canonChars (c == Char.ofNat 45) rest

/-- `textproto.CanonicalMIMEHeaderKey`: canonicalise unless some byte is not a
valid header-field byte, in which case the key is returned unchanged. -/
def canonicalHeaderKey (s : String) : String :=
  if s.data.all validHeaderFieldByte then
    String.mk (canonChars true s.data)
  else s

/-- Go `http.Header`: the value list stored under each canonical key (a key
that is absent maps to the empty list, as a Go map read of a missing key
yields `nil`). -/
def Header : Type := String → List String

/-- `http.Header.Get`: first value stored under the canonicalised key, `""`
when there is none. -/
def Header.get (h : Header) (key : String) : String :=
  match h (canonicalHeaderKey key) with
  | [] => ""
  | v :: _ => v

/-- `http.Header.Set`: replace the values under the canonicalised key by the
single given value. -/
def Header.set (h : Header) (key value : String) : Header :=
  fun k => if k = canonicalHeaderKey key then [value] else h k

/-- `http.Header.Del`: delete the entry under the canonicalised key. -/
def Header.del (h : Header) (key : String) : Header :=
  fun k => if k = canonicalHeaderKey key then [] else h k

/-- The empty header map. -/
def Header.empty : Header := fun _ => []

/-- The fields of `*http.Request` the package reads: method, URL (as the
string the cache key is built from) and header map. -/
structure Request where
  method : String
  url : String
  header : Header

/-- The fields of `*http.Response` the package reads: status code, header
map, body stream (bytes or a read error) and the request the response is
associated with (`http.Response.Request`, `nil` ↦ `none`). -/
structure Response where
  statusCode : Nat
  header : Header
  body : Except String String
  request : Option Request

/-- `httpcache.XFromCache`. -/
def XFromCache : String := "X-Aproxy-From-Cache"

/-- `httpcache.XCacheable`. -/
def XCacheable : String := "X-Aproxy-Cacheable"

/-- A byte sequence stored in the cache, represented by its parse under
`http.ReadResponse`: `wellFormed` carries the status code, headers and body
of a parsable serialized response, `malformed raw` stands for bytes the
parser rejects with an error mentioning `raw`. -/
inductive CacheEntry
  | wellFormed (statusCode : Nat) (header : Header) (body : String)
  | malformed (raw : String)

/-- `bytesToResp`: `http.ReadResponse` over the stored bytes, associating the
parsed response with `req`. -/
def bytesToResp (b : CacheEntry) (req : Request) : Except String Response :=
  match b with
  | .wellFormed st h body => .ok ⟨st, h, .ok body, some req⟩
  | .malformed raw => .error ("malformed HTTP response: " ++ raw)

/-- `httputil.DumpResponse(resp, true)`: serializes status, headers and body;
fails exactly when reading the body fails. -/
def dumpResponse (resp : Response) : Except String CacheEntry :=
  match resp.body with
  | .ok b => .ok (.wellFormed resp.statusCode resp.header b)
  | .error e => .error e

/-- Modelled from the spec: `cacheKey` is not present under `src/`; the spec
states the key is "in the reference design simply the request URL string". -/
def cacheKey (req : Request) : String := req.url

/-- The `cacheable` eligibility test computed at the top of
`Transport.RoundTrip`:
`(req.Method == "GET" || req.Method == "HEAD") && req.Header.Get("range") == ""`. -/
def cacheableReq (req : Request) : Bool :=
  (req.method == "GET" || req.method == "HEAD") && req.header.get "range" == ""

/-- Result of `Transport.lookup`: `nil` (miss), a cached response (hit), or
the `panic(err)` taken when deserialization fails. -/
inductive LookupResult
  | miss
  | hit (resp : Response)
  | panicked (msg : String)

/-- `Transport.lookup`: query the cache store under the request's key; on a
value, deserialize it (panicking on failure) and mark it with `XFromCache`. -/
def Transport.lookup (cacheGet : String → Option CacheEntry) (req : Request) :
    LookupResult :=
  match cacheGet (cacheKey req) with
  | none => .miss
  | some bytes =>
    match bytesToResp bytes req with
    | .error e => .panicked e
    | .ok resp => .hit { resp with header := resp.header.set XFromCache "1" }

/-- What `Transport.RoundTrip` hands back to its caller: the `(resp, err)`
pair, or the propagated panic from `lookup`. -/
inductive RTOutcome
  | ok (resp : Response)
  | err (e : String)
  | panicked (msg : String)

/-- A `RoundTrip` call together with its observable effects. -/
structure RTResult where
  outcome : RTOutcome
  /-- keys passed to `Cache.Get`, in order. -/
  getCalls : List String
  /-- `Cache.Set` invocations `(key, value)`, in order. -/
  setCalls : List (String × CacheEntry)
  /-- requests handed to the underlying transport, in order. -/
  forwarded : List Request
  /-- the caller's request object as it stands when `RoundTrip` returns
  (the Go code mutates the request in place). -/
  finalReq : Request

/-- The effect of `req.Header.Del("If-None-Match")` on the caller's request:
the same object with the header deleted in place. -/
def strippedReq (req : Request) : Request :=
  { req with header := req.header.del "If-None-Match" }

/-- The forwarding tail of `Transport.RoundTrip`, from
`req.Header.Del("If-None-Match")` on: forward, force non-cacheable on error
or 304, store and re-deserialize otherwise. `gets` is the `Cache.Get` trace
accumulated by the lookup phase and `cacheable` the eligibility flag. -/
def Transport.forward (transport : Request → Except String Response)
    (req : Request) (gets : List String) (cacheable : Bool) : RTResult :=
  let req' := strippedReq req
  match transport req' with
  | .error e => ⟨.err e, gets, [], [req'], req'⟩
  | .ok resp =>
    if cacheable && resp.statusCode != 304 then
      match dumpResponse resp with
      | .ok respBytes =>
        (match bytesToResp respBytes req' with
         | .ok r2 => ⟨.ok r2, gets, [(cacheKey req', respBytes)], [req'], req'⟩
         | .error e => ⟨.err e, gets, [(cacheKey req', respBytes)], [req'], req'⟩)
      | .error _e => ⟨.ok resp, gets, [], [req'], req'⟩
    else ⟨.ok resp, gets, [], [req'], req'⟩

/-- `Transport.RoundTrip`: serve from cache when eligible and present,
otherwise forward and opportunistically store. -/
def Transport.roundTrip (cacheGet : String → Option CacheEntry)
    (transport : Request → Except String Response) (req : Request) : RTResult :=
  if cacheableReq req then
    match Transport.lookup cacheGet req with
    | .panicked e => ⟨.panicked e, [cacheKey req], [], [], req⟩
    | .hit resp => ⟨.ok resp, [cacheKey req], [], [], req⟩
    | .miss => Transport.forward transport req [cacheKey req] true
  else Transport.forward transport req [] false

/-- `cloneRequest`: shallow copy of the request with a copied header map.
Defined by the package but never called by `RoundTrip`. -/
def cloneRequest (r : Request) : Request :=
  { method := r.method, url := r.url, header := fun k => r.header k }

/-- `MemoryCache`: the in-memory `Cache` implementation.  The two Go maps
are functions to `Option`; time instants are integers and `maxTTL` an
integer duration.  The mutex only serialises access and has no pure
content. -/
structure MemoryCache where
  items : String → Option (List Nat)
  ts : String → Option Int
  maxTTL : Int

/-- `NewMemoryCache`: fails (panics) unless `maxTTL > 0`, otherwise starts
with both maps empty. -/
def NewMemoryCache (maxTTL : Int) : Option MemoryCache :=
  if maxTTL ≤ 0 then none
  else some ⟨fun _ => none, fun _ => none, maxTTL⟩

/-- `MemoryCache.Delete`: remove the key from both maps. -/
def MemoryCache.Delete (c : MemoryCache) (key : String) : MemoryCache :=
  { c with
    ts := fun k => if k = key then none else c.ts k
    items := fun k => if k = key then none else c.items k }

/-- `MemoryCache.Get` at instant `now`: read the value and timestamp; when
the value is present and `now - ts > maxTTL`, delete the entry and report
not-found, otherwise return what the map read gave.  A missing timestamp
reads as the zero `time.Time`, i.e. instant `0`.  The returned pair is the
`(resp, ok)` result (as an `Option`) and the store after the call. -/
def MemoryCache.Get (c : MemoryCache) (key : String) (now : Int) :
    Option (List Nat) × MemoryCache :=
  let resp := c.items key
  let ts := (c.ts key).getD 0
  if resp.isSome && decide (now - ts > c.maxTTL) then
    (none, c.Delete key)
  else (resp, c)

/-- `MemoryCache.Set` at instant `now`: record the insertion timestamp and
store the value, overwriting any previous entry. -/
def MemoryCache.Set (c : MemoryCache) (key : String) (resp : List Nat)
    (now : Int) : MemoryCache :=
  { c with
    ts := fun k => if k = key then some now else c.ts k
    items := fun k => if k = key then some resp else c.items k }

/-- The key sets of the value map and the timestamp map coincide. -/
def MemoryCache.WF (c : MemoryCache) : Prop :=
  ∀ k, (c.items k).isSome ↔ (c.ts k).isSome

/-- Whether a `RoundTrip` outcome is a returned response with a `nil` error. -/
def RTOutcome.isOk : RTOutcome → Bool
  | .ok _ => true
  | _ => false

/-- The value a returned response carries under a header name (`""` when the
outcome is not a response). -/
def RTOutcome.headerVal (o : RTOutcome) (name : String) : String :=
  match o with
  | .ok r => r.header.get name
  | _ => ""

/-- The outcome corresponding to handing the underlying transport's
`(resp, err)` pair back unchanged. -/
def rtOf : Except String Response → RTOutcome
  | .ok r => .ok r
  | .error e => .err e

/-- The value a stored cache entry carries under a header name (`""` for
malformed bytes). -/
def entryHeaderVal (e : CacheEntry) (name : String) : String :=
  match e with
  | .wellFormed _ h _ => h.get name
  | .malformed _ => ""

/-! ### Concrete fixtures used by the closed instances -/

/-- A plain `GET` request. -/
def reqGetA : Request := ⟨"GET", "http://x/a", Header.empty⟩

/-- A `POST` request to the same URL. -/
def reqPostA : Request := ⟨"POST", "http://x/a", Header.empty⟩

/-- A `GET` request carrying a `Range` header. -/
def reqRangeA : Request := ⟨"GET", "http://x/a", Header.empty.set "Range" "bytes=0-10"⟩

/-- A 200 response with body `"hello"`. -/
def respHello : Response := ⟨200, Header.empty, .ok "hello", none⟩

/-- A transport that always answers `respHello`. -/
def trHello : Request → Except String Response := fun _ => .ok respHello

/-- A transport that always fails. -/
def trFail : Request → Except String Response := fun _ => .error "connection refused"

/-- A transport that always answers `304 Not Modified`. -/
def tr304 : Request → Except String Response := fun _ => .ok ⟨304, Header.empty, .ok "", none⟩

/-- A transport whose response body fails to read (so `DumpResponse` fails). -/
def trBadBody : Request → Except String Response :=
  fun _ => .ok ⟨200, Header.empty, .error "read failure", none⟩

/-- An empty cache store. -/
def cgEmpty : String → Option CacheEntry := fun _ => none

/-- The serialized form of `respHello`. -/
def entryHello : CacheEntry := .wellFormed 200 Header.empty "hello"

/-- A cache store holding `entryHello` under `reqGetA`'s key. -/
def cgHello : String → Option CacheEntry :=
  fun k => if k = "http://x/a" then some entryHello else none

/-- A cache store holding unparsable bytes under `reqGetA`'s key. -/
def cgBad : String → Option CacheEntry :=
  fun k => if k = "http://x/a" then some (.malformed "garbage") else none

/-! ## Header lemmas -/

theorem Header.get_set_same (h : Header) (key value : String) :
    (h.set key value).get key = value := by
  simp [Header.get, Header.set]

theorem Header.get_set_ne (h : Header) (key1 key2 value : String)
    (hne : canonicalHeaderKey key1 ≠ canonicalHeaderKey key2) :
    (h.set key2 value).get key1 = h.get key1 := by
  simp [Header.get, Header.set, hne]

theorem Header.get_del_same (h : Header) (key : String) :
    (h.del key).get key = "" := by
  simp [Header.get, Header.del]

theorem Header.get_del_ne (h : Header) (key1 key2 : String)
    (hne : canonicalHeaderKey key1 ≠ canonicalHeaderKey key2) :
    (h.del key2).get key1 = h.get key1 := by
  simp [Header.get, Header.del, hne]

/-! ## Control-flow characterisations of `RoundTrip` -/

theorem Transport.lookup_eq_miss (cg : String → Option CacheEntry) (req : Request)
    (h : cg (cacheKey req) = none) : Transport.lookup cg req = .miss := by
  unfold Transport.lookup
  rw [h]

theorem Transport.lookup_eq_hit (cg : String → Option CacheEntry) (req : Request)
    (e : CacheEntry) (r : Response) (h : cg (cacheKey req) = some e)
    (hr : bytesToResp e req = .ok r) :
    Transport.lookup cg req = .hit { r with header := r.header.set XFromCache "1" } := by
  unfold Transport.lookup
  rw [h]
  dsimp only
  rw [hr]

theorem Transport.lookup_eq_panicked (cg : String → Option CacheEntry) (req : Request)
    (e : CacheEntry) (msg : String) (h : cg (cacheKey req) = some e)
    (hr : bytesToResp e req = .error msg) :
    Transport.lookup cg req = .panicked msg := by
  unfold Transport.lookup
  rw [h]
  dsimp only
  rw [hr]

theorem Transport.roundTrip_of_not_cacheable (cg : String → Option CacheEntry)
    (tr : Request → Except String Response) (req : Request)
    (h : cacheableReq req = false) :
    Transport.roundTrip cg tr req = Transport.forward tr req [] false := by
  unfold Transport.roundTrip
  rw [h]
  simp

theorem Transport.roundTrip_of_miss (cg : String → Option CacheEntry)
    (tr : Request → Except String Response) (req : Request)
    (h : cacheableReq req = true) (hm : Transport.lookup cg req = .miss) :
    Transport.roundTrip cg tr req = Transport.forward tr req [cacheKey req] true := by
  unfold Transport.roundTrip
  rw [h, hm]
  simp

theorem Transport.roundTrip_of_hit (cg : String → Option CacheEntry)
    (tr : Request → Except String Response) (req : Request) (r : Response)
    (h : cacheableReq req = true) (hm : Transport.lookup cg req = .hit r) :
    Transport.roundTrip cg tr req = ⟨.ok r, [cacheKey req], [], [], req⟩ := by
  unfold Transport.roundTrip
  rw [h, hm]
  simp

theorem Transport.roundTrip_of_panicked (cg : String → Option CacheEntry)
    (tr : Request → Except String Response) (req : Request) (msg : String)
    (h : cacheableReq req = true) (hm : Transport.lookup cg req = .panicked msg) :
    Transport.roundTrip cg tr req = ⟨.panicked msg, [cacheKey req], [], [], req⟩ := by
  unfold Transport.roundTrip
  rw [h, hm]
  simp

theorem Transport.forward_of_error (tr : Request → Except String Response)
    (req : Request) (gets : List String) (cacheable : Bool) (e : String)
    (h : tr (strippedReq req) = .error e) :
    Transport.forward tr req gets cacheable =
      ⟨.err e, gets, [], [strippedReq req], strippedReq req⟩ := by
  unfold Transport.forward
  dsimp only
  rw [h]

theorem Transport.forward_of_not_cacheable (tr : Request → Except String Response)
    (req : Request) (gets : List String) (resp : Response)
    (h : tr (strippedReq req) = .ok resp) :
    Transport.forward tr req gets false =
      ⟨.ok resp, gets, [], [strippedReq req], strippedReq req⟩ := by
  unfold Transport.forward
  dsimp only
  rw [h]
  simp

theorem Transport.forward_of_304 (tr : Request → Except String Response)
    (req : Request) (gets : List String) (cacheable : Bool) (resp : Response)
    (h : tr (strippedReq req) = .ok resp) (h304 : resp.statusCode = 304) :
    Transport.forward tr req gets cacheable =
      ⟨.ok resp, gets, [], [strippedReq req], strippedReq req⟩ := by
  unfold Transport.forward
  dsimp only
  rw [h]
  simp [h304]

theorem Transport.forward_of_dump_error (tr : Request → Except String Response)
    (req : Request) (gets : List String) (resp : Response) (e : String)
    (h : tr (strippedReq req) = .ok resp) (h304 : resp.statusCode ≠ 304)
    (hd : dumpResponse resp = .error e) :
    Transport.forward tr req gets true =
      ⟨.ok resp, gets, [], [strippedReq req], strippedReq req⟩ := by
  unfold Transport.forward
  dsimp only
  rw [h]
  simp [h304, hd]

theorem Transport.forward_of_store (tr : Request → Except String Response)
    (req : Request) (gets : List String) (resp : Response) (b : CacheEntry)
    (r2 : Response) (h : tr (strippedReq req) = .ok resp)
    (h304 : resp.statusCode ≠ 304) (hd : dumpResponse resp = .ok b)
    (hb : bytesToResp b (strippedReq req) = .ok r2) :
    Transport.forward tr req gets true =
      ⟨.ok r2, gets, [(cacheKey (strippedReq req), b)], [strippedReq req],
        strippedReq req⟩ := by
  unfold Transport.forward
  dsimp only
  rw [h]
  simp [h304, hd, hb]

theorem Transport.forward_of_store_reparse_error (tr : Request → Except String Response)
    (req : Request) (gets : List String) (resp : Response) (b : CacheEntry)
    (e2 : String) (h : tr (strippedReq req) = .ok resp)
    (h304 : resp.statusCode ≠ 304) (hd : dumpResponse resp = .ok b)
    (hb : bytesToResp b (strippedReq req) = .error e2) :
    Transport.forward tr req gets true =
      ⟨.err e2, gets, [(cacheKey (strippedReq req), b)], [strippedReq req],
        strippedReq req⟩ := by
  unfold Transport.forward
  dsimp only
  rw [h]
  simp [h304, hd, hb]

theorem Transport.forward_shape (tr : Request → Except String Response)
    (req : Request) (gets : List String) (cacheable : Bool) :
    (Transport.forward tr req gets cacheable).finalReq = strippedReq req ∧
    (Transport.forward tr req gets cacheable).forwarded = [strippedReq req] ∧
    (Transport.forward tr req gets cacheable).getCalls = gets := by
  rcases htr : tr (strippedReq req) with e | resp
  · rw [Transport.forward_of_error tr req gets cacheable e htr]
    exact ⟨rfl, rfl, rfl⟩
  · cases cacheable with
    | false =>
      rw [Transport.forward_of_not_cacheable tr req gets resp htr]
      exact ⟨rfl, rfl, rfl⟩
    | true =>
      by_cases h304 : resp.statusCode = 304
      · rw [Transport.forward_of_304 tr req gets true resp htr h304]
        exact ⟨rfl, rfl, rfl⟩
      · rcases hd : dumpResponse resp with e2 | b
        · rw [Transport.forward_of_dump_error tr req gets resp e2 htr h304 hd]
          exact ⟨rfl, rfl, rfl⟩
        · rcases hb : bytesToResp b (strippedReq req) with e3 | r2
          · rw [Transport.forward_of_store_reparse_error tr req gets resp b e3 htr h304 hd hb]
            exact ⟨rfl, rfl, rfl⟩
          · rw [Transport.forward_of_store tr req gets resp b r2 htr h304 hd hb]
            exact ⟨rfl, rfl, rfl⟩

theorem Header.get_range_eq (h : Header) : h.get "range" = h.get "Range" := rfl

theorem cacheable_false_of (req : Request)
    (h : (req.method ≠ "GET" ∧ req.method ≠ "HEAD") ∨ req.header.get "Range" ≠ "") :
    cacheableReq req = false := by
  unfold cacheableReq
  rcases h with ⟨h1, h2⟩ | h1
  · simp [h1, h2]
  · have hr : req.header.get "range" ≠ "" := by
      rw [Header.get_range_eq]
      exact h1
    simp [hr]

theorem Transport.forward_false_spec (tr : Request → Except String Response)
    (req : Request) (gets : List String) :
    Transport.forward tr req gets false =
      ⟨rtOf (tr (strippedReq req)), gets, [], [strippedReq req], strippedReq req⟩ := by
  rcases htr : tr (strippedReq req) with e | resp
  · rw [Transport.forward_of_error tr req gets false e htr]
    rfl
  · rw [Transport.forward_of_not_cacheable tr req gets resp htr]
    rfl

/-- C1: a request that is not a `GET` or `HEAD`, or that carries a `Range`
header, never touches the cache: `RoundTrip` performs no `Cache.Get` and no
`Cache.Set`, forwards the request to the underlying transport once, and
returns that transport's response and error values unchanged. -/
theorem claimC1_ineligible_bypasses_cache (cg : String → Option CacheEntry)
    (tr : Request → Except String Response) (req : Request)
    (h : (req.method ≠ "GET" ∧ req.method ≠ "HEAD") ∨ req.header.get "Range" ≠ "") :
    (Transport.roundTrip cg tr req).getCalls = [] ∧
    (Transport.roundTrip cg tr req).setCalls = [] ∧
    (Transport.roundTrip cg tr req).forwarded = [strippedReq req] ∧
    (Transport.roundTrip cg tr req).outcome = rtOf (tr (strippedReq req)) := by
  rw [Transport.roundTrip_of_not_cacheable cg tr req (cacheable_false_of req h),
    Transport.forward_false_spec]
  exact ⟨rfl, rfl, rfl, rfl⟩

theorem claimC1_witness :
    (Transport.roundTrip cgEmpty trHello reqPostA).getCalls = [] ∧
    (Transport.roundTrip cgEmpty trHello reqPostA).setCalls = [] ∧
    (Transport.roundTrip cgEmpty trHello reqPostA).forwarded = [strippedReq reqPostA] ∧
    (Transport.roundTrip cgEmpty trHello reqPostA).outcome = rtOf (trHello (strippedReq reqPostA)) :=
  claimC1_ineligible_bypasses_cache cgEmpty trHello reqPostA (Or.inl (by decide))

/-- C2: when a cacheable request finds a value in the cache store that
deserializes successfully, `RoundTrip` returns that deserialized response —
re-associated with the original request and carrying `X-Aproxy-From-Cache: 1`
— and neither forwards to the underlying transport nor writes the cache. -/
theorem claimC2_hit_served_from_cache (cg : String → Option CacheEntry)
    (tr : Request → Except String Response) (req : Request) (e : CacheEntry)
    (r : Response) (hc : cacheableReq req = true)
    (hget : cg (cacheKey req) = some e) (hok : bytesToResp e req = .ok r) :
    (Transport.roundTrip cg tr req).outcome =
      .ok { r with header := r.header.set XFromCache "1" } ∧
    (Transport.roundTrip cg tr req).forwarded = [] ∧
    (Transport.roundTrip cg tr req).setCalls = [] ∧
    r.request = some req ∧
    ({ r with header := r.header.set XFromCache "1" } : Response).header.get
      XFromCache = "1" := by
  rw [Transport.roundTrip_of_hit cg tr req _ hc
    (Transport.lookup_eq_hit cg req e r hget hok)]
  refine ⟨rfl, rfl, rfl, ?_, Header.get_set_same _ _ _⟩
  cases e with
  | wellFormed st hh body =>
    rw [bytesToResp] at hok
    cases hok
    rfl
  | malformed raw =>
    rw [bytesToResp] at hok
    cases hok

theorem claimC2_witness :
    (Transport.roundTrip cgHello trHello reqGetA).outcome =
      .ok { (⟨200, Header.empty, .ok "hello", some reqGetA⟩ : Response) with
        header := Header.empty.set XFromCache "1" } ∧
    (Transport.roundTrip cgHello trHello reqGetA).forwarded = [] ∧
    (Transport.roundTrip cgHello trHello reqGetA).setCalls = [] ∧
    (⟨200, Header.empty, .ok "hello", some reqGetA⟩ : Response).request = some reqGetA ∧
    ({ (⟨200, Header.empty, .ok "hello", some reqGetA⟩ : Response) with
      header := Header.empty.set XFromCache "1" } : Response).header.get XFromCache = "1" :=
  claimC2_hit_served_from_cache cgHello trHello reqGetA entryHello
    ⟨200, Header.empty, .ok "hello", some reqGetA⟩ rfl rfl rfl

theorem Transport.roundTrip_fwd_cases (cg : String → Option CacheEntry)
    (tr : Request → Except String Response) (req : Request)
    (h : cacheableReq req = false ∨ Transport.lookup cg req = .miss) :
    Transport.roundTrip cg tr req = Transport.forward tr req [] false ∨
    Transport.roundTrip cg tr req = Transport.forward tr req [cacheKey req] true := by
  rcases h with h | h
  · exact Or.inl (Transport.roundTrip_of_not_cacheable cg tr req h)
  · cases hc : cacheableReq req
    · exact Or.inl (Transport.roundTrip_of_not_cacheable cg tr req hc)
    · exact Or.inr (Transport.roundTrip_of_miss cg tr req hc h)

/-- C4: whenever `RoundTrip` reaches the forwarding path (ineligible request
or cache miss), it deletes `If-None-Match` from the request before
delegating, and — the request not being cloned — the deletion is performed on
the caller's request object itself, so it is still visible when `RoundTrip`
returns: the final request is the original with the header gone, and it is
that very object which was handed to the underlying transport. -/
theorem claimC4_strips_if_none_match (cg : String → Option CacheEntry)
    (tr : Request → Except String Response) (req : Request)
    (h : cacheableReq req = false ∨ Transport.lookup cg req = .miss) :
    (Transport.roundTrip cg tr req).finalReq = strippedReq req ∧
    (Transport.roundTrip cg tr req).finalReq.header =
      req.header.del "If-None-Match" ∧
    (Transport.roundTrip cg tr req).finalReq.header.get "If-None-Match" = "" ∧
    (Transport.roundTrip cg tr req).forwarded =
      [(Transport.roundTrip cg tr req).finalReq] := by
  rcases Transport.roundTrip_fwd_cases cg tr req h with heq | heq <;>
    rw [heq] <;>
    rcases Transport.forward_shape tr req _ _ with ⟨h1, h2, _⟩ <;>
    exact ⟨h1, by rw [h1]; rfl, by rw [h1]; exact Header.get_del_same _ _, by rw [h1, h2]⟩

theorem claimC4_witness :
    (Transport.roundTrip cgEmpty trHello reqGetA).finalReq = strippedReq reqGetA ∧
    (Transport.roundTrip cgEmpty trHello reqGetA).finalReq.header =
      reqGetA.header.del "If-None-Match" ∧
    (Transport.roundTrip cgEmpty trHello reqGetA).finalReq.header.get "If-None-Match" = "" ∧
    (Transport.roundTrip cgEmpty trHello reqGetA).forwarded =
      [(Transport.roundTrip cgEmpty trHello reqGetA).finalReq] :=
  claimC4_strips_if_none_match cgEmpty trHello reqGetA (Or.inr rfl)

/-- C5: on the forwarding path, a transport error or a `304 Not Modified`
origin response forces the response non-cacheable: no `Cache.Set` happens
and the transport's `(resp, err)` pair is returned unchanged. -/
theorem claimC5_error_or_304_not_stored (cg : String → Option CacheEntry)
    (tr : Request → Except String Response) (req : Request) (e : String)
    (r : Response)
    (hfwd : cacheableReq req = false ∨ Transport.lookup cg req = .miss)
    (hresp : tr (strippedReq req) = .error e ∨
      (tr (strippedReq req) = .ok r ∧ r.statusCode = 304)) :
    (Transport.roundTrip cg tr req).setCalls = [] ∧
    (Transport.roundTrip cg tr req).outcome = rtOf (tr (strippedReq req)) := by
  rcases Transport.roundTrip_fwd_cases cg tr req hfwd with heq | heq <;> rw [heq] <;>
    [rcases hresp with htr | ⟨htr, h304⟩; rcases hresp with htr | ⟨htr, h304⟩]
  · rw [Transport.forward_of_error tr req [] false e htr, htr]
    exact ⟨rfl, rfl⟩
  · rw [Transport.forward_of_304 tr req [] false r htr h304, htr]
    exact ⟨rfl, rfl⟩
  · rw [Transport.forward_of_error tr req [cacheKey req] true e htr, htr]
    exact ⟨rfl, rfl⟩
  · rw [Transport.forward_of_304 tr req [cacheKey req] true r htr h304, htr]
    exact ⟨rfl, rfl⟩

theorem claimC5_witness :
    (Transport.roundTrip cgEmpty trFail reqGetA).setCalls = [] ∧
    (Transport.roundTrip cgEmpty trFail reqGetA).outcome =
      rtOf (trFail (strippedReq reqGetA)) :=
  claimC5_error_or_304_not_stored cgEmpty trFail reqGetA "connection refused"
    respHello (Or.inr rfl) (Or.inl rfl)

/-- C6: when a cacheable request misses the cache, the forward succeeds with
a storable status, but serializing the response fails, `RoundTrip` skips the
cache write and still returns the original response with a `nil` error. -/
theorem claimC6_dump_failure_nonfatal (cg : String → Option CacheEntry)
    (tr : Request → Except String Response) (req : Request) (resp : Response)
    (e : String) (hc : cacheableReq req = true)
    (hm : cg (cacheKey req) = none) (htr : tr (strippedReq req) = .ok resp)
    (h304 : resp.statusCode ≠ 304) (hd : dumpResponse resp = .error e) :
    (Transport.roundTrip cg tr req).outcome = .ok resp ∧
    (Transport.roundTrip cg tr req).setCalls = [] := by
  rw [Transport.roundTrip_of_miss cg tr req hc (Transport.lookup_eq_miss cg req hm),
    Transport.forward_of_dump_error tr req [cacheKey req] resp e htr h304 hd]
  exact ⟨rfl, rfl⟩

theorem claimC6_witness :
    (Transport.roundTrip cgEmpty trBadBody reqGetA).outcome =
      .ok ⟨200, Header.empty, .error "read failure", none⟩ ∧
    (Transport.roundTrip cgEmpty trBadBody reqGetA).setCalls = [] :=
  claimC6_dump_failure_nonfatal cgEmpty trBadBody reqGetA
    ⟨200, Header.empty, .error "read failure", none⟩ "read failure"
    rfl rfl rfl (by decide) rfl

/-- C7: when the cache store returns bytes for a cacheable request that fail
to deserialize, `lookup` panics: `RoundTrip` neither treats the situation as
a miss (no forward happens) nor returns; the panic propagates. -/
theorem claimC7_corrupt_entry_panics (cg : String → Option CacheEntry)
    (tr : Request → Except String Response) (req : Request) (e : CacheEntry)
    (msg : String) (hc : cacheableReq req = true)
    (hg : cg (cacheKey req) = some e) (hb : bytesToResp e req = .error msg) :
    (Transport.roundTrip cg tr req).outcome = .panicked msg ∧
    (Transport.roundTrip cg tr req).forwarded = [] ∧
    (Transport.roundTrip cg tr req).setCalls = [] := by
  rw [Transport.roundTrip_of_panicked cg tr req msg hc
    (Transport.lookup_eq_panicked cg req e msg hg hb)]
  exact ⟨rfl, rfl, rfl⟩

theorem claimC7_witness :
    (Transport.roundTrip cgBad trHello reqGetA).outcome =
      .panicked "malformed HTTP response: garbage" ∧
    (Transport.roundTrip cgBad trHello reqGetA).forwarded = [] ∧
    (Transport.roundTrip cgBad trHello reqGetA).setCalls = [] :=
  claimC7_corrupt_entry_panics cgBad trHello reqGetA (.malformed "garbage")
    "malformed HTTP response: garbage" rfl rfl rfl

/-- C8: when a cacheable request misses the cache and the forward succeeds
with a storable response that serializes, `RoundTrip` stores the serialized
bytes under the computed cache key and returns the response re-deserialized
from those same bytes — a fresh object bound to the request — rather than
the transport's original response object. -/
theorem claimC8_stores_and_returns_reparsed (cg : String → Option CacheEntry)
    (tr : Request → Except String Response) (req : Request) (resp : Response)
    (b : CacheEntry) (r2 : Response) (hc : cacheableReq req = true)
    (hm : cg (cacheKey req) = none) (htr : tr (strippedReq req) = .ok resp)
    (h304 : resp.statusCode ≠ 304) (hd : dumpResponse resp = .ok b)
    (hb : bytesToResp b (strippedReq req) = .ok r2) :
    (Transport.roundTrip cg tr req).setCalls = [(cacheKey req, b)] ∧
    (Transport.roundTrip cg tr req).outcome = .ok r2 ∧
    r2.request = some (strippedReq req) := by
  rw [Transport.roundTrip_of_miss cg tr req hc (Transport.lookup_eq_miss cg req hm),
    Transport.forward_of_store tr req [cacheKey req] resp b r2 htr h304 hd hb]
  refine ⟨rfl, rfl, ?_⟩
  cases b with
  | wellFormed st hh body =>
    rw [bytesToResp] at hb
    cases hb
    rfl
  | malformed raw =>
    rw [bytesToResp] at hb
    cases hb

theorem claimC8_witness :
    (Transport.roundTrip cgEmpty trHello reqGetA).setCalls =
      [(cacheKey reqGetA, entryHello)] ∧
    (Transport.roundTrip cgEmpty trHello reqGetA).outcome =
      .ok ⟨200, Header.empty, .ok "hello", some (strippedReq reqGetA)⟩ ∧
    (⟨200, Header.empty, .ok "hello", some (strippedReq reqGetA)⟩ : Response).request =
      some (strippedReq reqGetA) :=
  claimC8_stores_and_returns_reparsed cgEmpty trHello reqGetA respHello entryHello
    ⟨200, Header.empty, .ok "hello", some (strippedReq reqGetA)⟩
    rfl rfl rfl (by decide) rfl rfl

/-- C3 is false on the code: `XCacheable` is declared but `RoundTrip` never
sets it.  Concretely, a plain `GET` through an empty cache and a transport
answering a 200 response without the header yields a returned response whose
`X-Aproxy-Cacheable` header is unset (`""`). -/
theorem claimC3_counterexample :
    (Transport.roundTrip cgEmpty trHello reqGetA).outcome.isOk = true ∧
    (Transport.roundTrip cgEmpty trHello reqGetA).outcome.headerVal XCacheable = "" := by
  constructor <;> rfl

theorem reparse_fields (resp : Response) (b : CacheEntry) (q : Request)
    (r2 : Response) (hd : dumpResponse resp = .ok b)
    (hb : bytesToResp b q = .ok r2) :
    r2.header = resp.header ∧ r2.statusCode = resp.statusCode ∧
    r2.request = some q := by
  unfold dumpResponse at hd
  rcases hrb : resp.body with e | s <;> rw [hrb] at hd
  · cases hd
  · cases hd
    rw [bytesToResp] at hb
    cases hb
    exact ⟨rfl, rfl, rfl⟩

theorem Transport.forward_preserves_absent_header
    (tr : Request → Except String Response) (req : Request) (gets : List String)
    (cacheable : Bool) (name : String)
    (htr : ∀ q r, tr q = .ok r → r.header.get name = "") :
    (Transport.forward tr req gets cacheable).outcome.headerVal name = "" := by
  rcases h : tr (strippedReq req) with e | resp
  · rw [Transport.forward_of_error tr req gets cacheable e h]
    rfl
  · have hresp := htr _ _ h
    cases cacheable with
    | false =>
      rw [Transport.forward_of_not_cacheable tr req gets resp h]
      exact hresp
    | true =>
      by_cases h304 : resp.statusCode = 304
      · rw [Transport.forward_of_304 tr req gets true resp h h304]
        exact hresp
      · rcases hd : dumpResponse resp with e2 | b
        · rw [Transport.forward_of_dump_error tr req gets resp e2 h h304 hd]
          exact hresp
        · rcases hb : bytesToResp b (strippedReq req) with e3 | r2
          · rw [Transport.forward_of_store_reparse_error tr req gets resp b e3 h h304 hd hb]
            rfl
          · rw [Transport.forward_of_store tr req gets resp b r2 h h304 hd hb]
            show r2.header.get name = ""
            rw [(reparse_fields resp b (strippedReq req) r2 hd hb).1]
            exact hresp

/-- C3 (amended): `RoundTrip` never attaches the `XCacheable` marker; the
constant is declared but unused.  If neither the stored cache entries nor
the underlying transport's responses carry the `X-Aproxy-Cacheable` header,
then no response returned by `RoundTrip` carries it either — only the
`X-Aproxy-From-Cache` marker is added, on cache-served responses. -/
theorem claimC3_amended_no_cacheable_marker (cg : String → Option CacheEntry)
    (tr : Request → Except String Response) (req : Request)
    (hcache : ∀ k e, cg k = some e → entryHeaderVal e XCacheable = "")
    (htr : ∀ q r, tr q = .ok r → r.header.get XCacheable = "") :
    (Transport.roundTrip cg tr req).outcome.headerVal XCacheable = "" := by
  cases hc : cacheableReq req with
  | false =>
    rw [Transport.roundTrip_of_not_cacheable cg tr req hc]
    exact Transport.forward_preserves_absent_header tr req [] false XCacheable htr
  | true =>
    rcases hg : cg (cacheKey req) with _ | e
    · rw [Transport.roundTrip_of_miss cg tr req hc (Transport.lookup_eq_miss cg req hg)]
      exact Transport.forward_preserves_absent_header tr req [cacheKey req] true XCacheable htr
    · cases e with
      | malformed raw =>
        rw [Transport.roundTrip_of_panicked cg tr req _ hc
          (Transport.lookup_eq_panicked cg req _ _ hg rfl)]
        rfl
      | wellFormed st hh body =>
        rw [Transport.roundTrip_of_hit cg tr req _ hc
          (Transport.lookup_eq_hit cg req _ ⟨st, hh, .ok body, some req⟩ hg rfl)]
        show (hh.set XFromCache "1").get XCacheable = ""
        rw [Header.get_set_ne hh XCacheable XFromCache "1" (by decide)]
        exact hcache _ _ hg

theorem claimC3_amended_witness :
    (Transport.roundTrip cgEmpty trHello reqGetA).outcome.headerVal XCacheable = "" :=
  claimC3_amended_no_cacheable_marker cgEmpty trHello reqGetA
    (fun _ _ h => nomatch h)
    (fun _ r h => by
      injection h with h2
      rw [← h2]
      rfl)

/-- C9: in the in-memory cache, a `Get` for a key written by `Set` at time
`tSet`, performed at time `now` with `now - tSet > maxTTL`, returns
not-found and removes the entry (value and timestamp) from the store; a
`Get` while the entry is present and not expired returns the stored bytes
and leaves the store unchanged. -/
theorem claimC9_get_ttl_expiry (c : MemoryCache) (key : String) (v : List Nat)
    (tSet now : Int) :
    (now - tSet > c.maxTTL →
      ((c.Set key v tSet).Get key now).1 = none ∧
      ((c.Set key v tSet).Get key now).2.items key = none ∧
      ((c.Set key v tSet).Get key now).2.ts key = none) ∧
    (now - tSet ≤ c.maxTTL →
      ((c.Set key v tSet).Get key now).1 = some v ∧
      ((c.Set key v tSet).Get key now).2 = c.Set key v tSet) := by
  constructor <;> intro h
  · simp [MemoryCache.Get, MemoryCache.Set, MemoryCache.Delete, h]
  · simp [MemoryCache.Get, MemoryCache.Set, MemoryCache.Delete, not_lt.mpr h]

theorem claimC9_witness :
    (((MemoryCache.Set ⟨fun _ => none, fun _ => none, 5⟩ "k" [1, 2] 0).Get "k" 10).1 = none ∧
     ((MemoryCache.Set ⟨fun _ => none, fun _ => none, 5⟩ "k" [1, 2] 0).Get "k" 10).2.items "k" = none ∧
     ((MemoryCache.Set ⟨fun _ => none, fun _ => none, 5⟩ "k" [1, 2] 0).Get "k" 10).2.ts "k" = none) ∧
    (((MemoryCache.Set ⟨fun _ => none, fun _ => none, 5⟩ "k" [1, 2] 0).Get "k" 3).1 = some [1, 2] ∧
     ((MemoryCache.Set ⟨fun _ => none, fun _ => none, 5⟩ "k" [1, 2] 0).Get "k" 3).2 =
       MemoryCache.Set ⟨fun _ => none, fun _ => none, 5⟩ "k" [1, 2] 0) :=
  ⟨(claimC9_get_ttl_expiry ⟨fun _ => none, fun _ => none, 5⟩ "k" [1, 2] 0 10).1 (by decide),
   (claimC9_get_ttl_expiry ⟨fun _ => none, fun _ => none, 5⟩ "k" [1, 2] 0 3).2 (by decide)⟩

/-- C10: the key set of the value map always equals the key set of the
timestamp map: it holds after `NewMemoryCache` and is preserved by `Set`,
`Delete`, and `Get` (whose lazy expiry removes both together). -/
theorem claimC10_items_ts_same_keys :
    (∀ ttl c0, NewMemoryCache ttl = some c0 → c0.WF) ∧
    (∀ (c : MemoryCache) k v t, c.WF → (c.Set k v t).WF) ∧
    (∀ (c : MemoryCache) k, c.WF → (c.Delete k).WF) ∧
    (∀ (c : MemoryCache) k now, c.WF → ((c.Get k now).2).WF) := by
  refine ⟨?_, ?_, ?_, ?_⟩
  · intro ttl c0 h k
    unfold NewMemoryCache at h
    split at h
    · exact absurd h (by simp)
    · cases h
      simp
  · intro c k v t hwf k2
    by_cases hk : k2 = k <;> simp [MemoryCache.Set, hk, hwf k2]
  · intro c k hwf k2
    by_cases hk : k2 = k <;> simp [MemoryCache.Delete, hk, hwf k2]
  · intro c k now hwf
    unfold MemoryCache.Get
    dsimp only
    split
    · intro k2
      by_cases hk : k2 = k <;> simp [MemoryCache.Delete, hk, hwf k2]
    · exact hwf

theorem claimC10_witness :
    MemoryCache.WF (MemoryCache.Set ⟨fun _ => none, fun _ => none, 5⟩ "k" [1] 0) :=
  claimC10_items_ts_same_keys.2.1 ⟨fun _ => none, fun _ => none, 5⟩ "k" [1] 0
    (fun _ => by simp)
